import Mathlib

/-!
Verification of the Bitwarden vault client core in `core/bitwarden_full.py`.

Bytes are modelled as `List Nat` with values below 256, and 32-bit words as
`Nat` with explicit reduction modulo `2^32`.  SHA-256, HMAC-SHA256 and
PBKDF2-HMAC-SHA256 are given concrete executable definitions (the Python
source calls `hashlib` / `hmac` / `cryptography` for these primitives).
AES-256-CBC decryption is an external library call in the source
(`cryptography.hazmat.primitives.ciphers`); it is modelled as an explicit
function parameter `aes : List Nat → List Nat → List Nat → Option (List Nat)`
taking key, IV and ciphertext, where `none` models a raised exception.
-/

set_option maxRecDepth 100000
set_option maxHeartbeats 1000000

namespace Bitwarden

/-- Reduction of a natural number to a 32-bit word. -/
def wrap32 (n : Nat) : Nat := n % 4294967296

/-- Right rotation of a 32-bit word by `n` positions. -/
def rotr32 (n w : Nat) : Nat := wrap32 ((w >>> n) ||| (w <<< (32 - n)))

/-- SHA-256 choice function `Ch(x,y,z)`. -/
def ch32 (x y z : Nat) : Nat := (x &&& y) ^^^ ((x ^^^ 4294967295) &&& z)

/-- SHA-256 majority function `Maj(x,y,z)`. -/
def maj32 (x y z : Nat) : Nat := (x &&& y) ^^^ (x &&& z) ^^^ (y &&& z)

/-- SHA-256 compression function `Σ0`. -/
def bigSigma0 (x : Nat) : Nat := rotr32 2 x ^^^ rotr32 13 x ^^^ rotr32 22 x

/-- SHA-256 compression function `Σ1`. -/
def bigSigma1 (x : Nat) : Nat := rotr32 6 x ^^^ rotr32 11 x ^^^ rotr32 25 x

/-- SHA-256 message-schedule function `σ0`. -/
def smallSigma0 (x : Nat) : Nat := rotr32 7 x ^^^ rotr32 18 x ^^^ (x >>> 3)

/-- SHA-256 message-schedule function `σ1`. -/
def smallSigma1 (x : Nat) : Nat := rotr32 17 x ^^^ rotr32 19 x ^^^ (x >>> 10)

/-- The eight working variables of the SHA-256 compression function. -/
structure Sha256State where
  a : Nat
  b : Nat
  c : Nat
  d : Nat
  e : Nat
  f : Nat
  g : Nat
  h : Nat
deriving Repr, DecidableEq

/-- The SHA-256 initial hash value (FIPS 180-4), in decimal. -/
def sha256Init : Sha256State :=
  ⟨1779033703, 3144134277, 1013904242, 2773480762,
   1359893119, 2600822924, 528734635, 1541459225⟩

/-- The 64 SHA-256 round constants (FIPS 180-4), in decimal. -/
def sha256K : List Nat :=
  [1116352408, 1899447441, 3049323471, 3921009573, 961987163, 1508970993, 2453635748,
   2870763221, 3624381080, 310598401, 607225278, 1426881987, 1925078388, 2162078206,
   2614888103, 3248222580, 3835390401, 4022224774, 264347078, 604807628, 770255983,
   1249150122, 1555081692, 1996064986, 2554220882, 2821834349, 2952996808, 3210313671,
   3336571891, 3584528711, 113926993, 338241895, 666307205, 773529912, 1294757372,
   1396182291, 1695183700, 1986661051, 2177026350, 2456956037, 2730485921, 2820302411,
   3259730800, 3345764771, 3516065817, 3600352804, 4094571909, 275423344, 430227734,
   506948616, 659060556, 883997877, 958139571, 1322822218, 1537002063, 1747873779,
   1955562222, 2024104815, 2227730452, 2361852424, 2428436474, 2756734187, 3204031479,
   3329325298]

/-- Big-endian assembly of four bytes into one 32-bit word. -/
def bytesToWord (b0 b1 b2 b3 : Nat) : Nat :=
  (b0 <<< 24) ||| (b1 <<< 16) ||| (b2 <<< 8) ||| b3

/-- Big-endian grouping of a byte list into 32-bit words (discarding a
trailing fragment; blocks handed to the compression function always have
exactly 64 bytes). -/
def bytesToWords : List Nat → List Nat
  | b0 :: b1 :: b2 :: b3 :: rest => bytesToWord b0 b1 b2 b3 :: bytesToWords rest
  | _ => []

/-- Big-endian serialisation of a 32-bit word into four bytes. -/
def wordBytes (w : Nat) : List Nat :=
  [(w >>> 24) &&& 255, (w >>> 16) &&& 255, (w >>> 8) &&& 255, w &&& 255]

/-- Extension of the 16 message words of a block to the full 64-entry
SHA-256 message schedule; `n` counts the words still to be appended. -/
def sha256Extend : Nat → List Nat → List Nat
  | 0, ws => ws
  | n + 1, ws =>
    let i := ws.length
    let next := wrap32 (smallSigma1 (ws.getD (i - 2) 0) + ws.getD (i - 7) 0 +
      smallSigma0 (ws.getD (i - 15) 0) + ws.getD (i - 16) 0)
    sha256Extend n (ws ++ [next])

/-- One round of the SHA-256 compression function on working variables. -/
def sha256Round (st : Sha256State) (kw : Nat × Nat) : Sha256State :=
  let t1 := wrap32 (st.h + bigSigma1 st.e + ch32 st.e st.f st.g + kw.1 + kw.2)
  let t2 := wrap32 (bigSigma0 st.a + maj32 st.a st.b st.c)
  ⟨wrap32 (t1 + t2), st.a, st.b, st.c, wrap32 (st.d + t1), st.e, st.f, st.g⟩

/-- Compression of one 64-byte block into the running hash state. -/
def sha256Compress (st : Sha256State) (block : List Nat) : Sha256State :=
  let ws := sha256Extend 48 (bytesToWords block)
  let r := (sha256K.zip ws).foldl sha256Round st
  ⟨wrap32 (st.a + r.a), wrap32 (st.b + r.b), wrap32 (st.c + r.c), wrap32 (st.d + r.d),
   wrap32 (st.e + r.e), wrap32 (st.f + r.f), wrap32 (st.g + r.g), wrap32 (st.h + r.h)⟩

/-- SHA-256 padding: a `0x80` byte, zeros to 56 mod 64, then the bit length
as a 64-bit big-endian integer. -/
def sha256Pad (msg : List Nat) : List Nat :=
  let l := msg.length
  let zeros := (119 - l % 64) % 64
  let bits := l * 8
  msg ++ 128 :: List.replicate zeros 0 ++
    [(bits >>> 56) &&& 255, (bits >>> 48) &&& 255, (bits >>> 40) &&& 255, (bits >>> 32) &&& 255,
     (bits >>> 24) &&& 255, (bits >>> 16) &&& 255, (bits >>> 8) &&& 255, bits &&& 255]

/-- Splitting a byte list into 64-byte blocks; the first argument is fuel
bounding the number of blocks (the length of the list suffices). -/
def sha256Chunks : Nat → List Nat → List (List Nat)
  | 0, _ => []
  | n + 1, l => if l.isEmpty then [] else l.take 64 :: sha256Chunks n (l.drop 64)

/-- Serialisation of the final hash state into the 32-byte digest. -/
def sha256Digest (s : Sha256State) : List Nat :=
  wordBytes s.a ++ wordBytes s.b ++ wordBytes s.c ++ wordBytes s.d ++
  wordBytes s.e ++ wordBytes s.f ++ wordBytes s.g ++ wordBytes s.h

/-- SHA-256 of a byte list (FIPS 180-4), yielding the 32-byte digest. -/
def sha256 (msg : List Nat) : List Nat :=
  let padded := sha256Pad msg
  sha256Digest ((sha256Chunks padded.length padded).foldl sha256Compress sha256Init)

/-- A SHA-256 digest always has exactly 32 bytes. -/
theorem sha256_length (msg : List Nat) : (sha256 msg).length = 32 := by
  simp [sha256, sha256Digest, wordBytes]

/-- SHA-256 of the empty message (FIPS 180-4 reference value). -/
example : sha256 [] =
    [0xe3, 0xb0, 0xc4, 0x42, 0x98, 0xfc, 0x1c, 0x14, 0x9a, 0xfb, 0xf4, 0xc8, 0x99, 0x6f, 0xb9,
     0x24, 0x27, 0xae, 0x41, 0xe4, 0x64, 0x9b, 0x93, 0x4c, 0xa4, 0x95, 0x99, 0x1b, 0x78, 0x52,
     0xb8, 0x55] := by decide

/-- HMAC-SHA256 (FIPS 198-1) over byte lists. -/
def hmacSha256 (key msg : List Nat) : List Nat :=
  let k0 := if 64 < key.length then sha256 key else key
  let kp := k0 ++ List.replicate (64 - k0.length) 0
  let ipad := kp.map (fun b => b ^^^ 54)
  let opad := kp.map (fun b => b ^^^ 92)
  sha256 (opad ++ sha256 (ipad ++ msg))

/-- An HMAC-SHA256 tag always has exactly 32 bytes. -/
theorem hmacSha256_length (key msg : List Nat) : (hmacSha256 key msg).length = 32 := by
  simp [hmacSha256, sha256_length]

/-- HMAC-SHA256 test vector 1 of RFC 4231. -/
example : hmacSha256 (List.replicate 20 0x0b)
    [72, 105, 32, 84, 104, 101, 114, 101] =
    [176, 52, 76, 97, 216, 219, 56, 83, 92, 168, 175, 206, 175, 11, 241, 43, 136, 29, 194, 0,
     201, 131, 61, 167, 38, 233, 55, 108, 46, 50, 207, 247] := by decide

/-- Accumulation of the PBKDF2 xor-chain: `n` remaining iterations beyond the
first, `u` the last HMAC output, `acc` the running xor of all outputs. -/
def pbkdf2Inner : Nat → List Nat → List Nat → List Nat → List Nat
  | 0, _, _, acc => acc
  | n + 1, pw, u, acc =>
    let u2 := hmacSha256 pw u
    pbkdf2Inner n pw u2 (List.zipWith (fun a b => a ^^^ b) acc u2)

/-- PBKDF2-HMAC-SHA256 (RFC 8018), first output block only, truncated to
`dklen` bytes; the source always requests `dklen = 32`, which one 32-byte
block covers. -/
def pbkdf2Sha256 (pw salt : List Nat) (iterations dklen : Nat) : List Nat :=
  let u1 := hmacSha256 pw (salt ++ [0, 0, 0, 1])
  (pbkdf2Inner (iterations - 1) pw u1 u1).take dklen

/-- The PBKDF2 xor-chain preserves the 32-byte block length. -/
theorem pbkdf2Inner_length (n : Nat) (pw u acc : List Nat) (hl : acc.length = 32) :
    (pbkdf2Inner n pw u acc).length = 32 := by
  induction n generalizing u acc with
  | zero => simpa [pbkdf2Inner] using hl
  | succ n ih =>
    simp only [pbkdf2Inner]
    exact ih _ _ (by simp [List.length_zipWith, hl, hmacSha256_length])

/-- PBKDF2-HMAC-SHA256 with the 32-byte output length used by the source
always yields exactly 32 bytes. -/
theorem pbkdf2Sha256_length (pw salt : List Nat) (iterations : Nat) :
    (pbkdf2Sha256 pw salt iterations 32).length = 32 := by
  simp [pbkdf2Sha256, List.length_take,
    pbkdf2Inner_length _ _ _ _ (hmacSha256_length pw (salt ++ [0, 0, 0, 1]))]

/-- PBKDF2-HMAC-SHA256 test vector of RFC 7914 section 11 (password
"password", salt "salt", 2 iterations, 32-byte output). -/
example : pbkdf2Sha256 [112, 97, 115, 115, 119, 111, 114, 100] [115, 97, 108, 116] 2 32 =
    [174, 77, 12, 149, 175, 107, 70, 211, 45, 10, 223, 249, 40, 240, 109, 208, 42, 48, 63, 142,
     243, 194, 81, 223, 214, 226, 216, 90, 149, 71, 76, 67] := by decide

/-- Value of one base64 alphabet character, `none` for anything else. -/
def b64Val (c : Char) : Option Nat :=
  if 65 ≤ c.toNat ∧ c.toNat ≤ 90 then some (c.toNat - 65)
  else if 97 ≤ c.toNat ∧ c.toNat ≤ 122 then some (c.toNat - 97 + 26)
  else if 48 ≤ c.toNat ∧ c.toNat ≤ 57 then some (c.toNat - 48 + 52)
  else if c = '+' then some 62
  else if c = '/' then some 63
  else none

/-- Bytes encoded by a full quad of four base64 values. -/
def b64Quad : List Nat → List Nat
  | [v0, v1, v2, v3] =>
    [(v0 <<< 2) ||| (v1 >>> 4), ((v1 &&& 15) <<< 4) ||| (v2 >>> 2), ((v2 &&& 3) <<< 6) ||| v3]
  | _ => []

/-- Bytes encoded by a padded partial quad of two or three base64 values. -/
def b64Partial : List Nat → List Nat
  | [v0, v1] => [(v0 <<< 2) ||| (v1 >>> 4)]
  | [v0, v1, v2] => [(v0 <<< 2) ||| (v1 >>> 4), ((v1 &&& 15) <<< 4) ||| (v2 >>> 2)]
  | _ => []

/-- Main loop of the CPython non-strict base64 decoder (`binascii.a2b_base64`
as called by `base64.b64decode`): characters outside the alphabet are
silently skipped, a padding character closes a quad of two or more values
(and is otherwise ignored), and leftover values at the end are an error. -/
def b64Loop : List Char → List Nat → List Nat → Option (List Nat)
  | [], buf, out => if buf.isEmpty then some out else none
  | c :: cs, buf, out =>
    match b64Val c with
    | some v =>
      let buf2 := buf ++ [v]
      if buf2.length == 4 then b64Loop cs [] (out ++ b64Quad buf2) else b64Loop cs buf2 out
    | none =>
      if c = '=' then
        if 2 ≤ buf.length then b64Loop cs [] (out ++ b64Partial buf) else b64Loop cs buf out
      else b64Loop cs buf out

/-- Model of Python `base64.b64decode` (default non-strict mode); `none`
models the `binascii.Error` exception. -/
def pyB64Decode (s : String) : Option (List Nat) :=
  b64Loop s.data [] []

example : pyB64Decode "AAAA" = some [0, 0, 0] := by decide

example : pyB64Decode "AQ==" = some [1] := by decide

example : pyB64Decode "AQ" = none := by decide

/-- UTF-8 encoding of one character (RFC 3629). -/
def utf8EncodeChar (c : Char) : List Nat :=
  let n := c.toNat
  if n < 0x80 then [n]
  else if n < 0x800 then [0xC0 ||| (n >>> 6), 0x80 ||| (n &&& 63)]
  else if n < 0x10000 then
    [0xE0 ||| (n >>> 12), 0x80 ||| ((n >>> 6) &&& 63), 0x80 ||| (n &&& 63)]
  else
    [0xF0 ||| (n >>> 18), 0x80 ||| ((n >>> 12) &&& 63), 0x80 ||| ((n >>> 6) &&& 63),
     0x80 ||| (n &&& 63)]

/-- UTF-8 encoding of a string, as Python `str.encode` produces it. -/
def utf8Encode (s : String) : List Nat :=
  (s.data.map utf8EncodeChar).flatten

/-- Decode loop for strict UTF-8 (fuel-indexed; fuel is the number of bytes
left, which bounds the number of decoded characters).  Overlong encodings,
surrogates and out-of-range values are rejected exactly as Python strict
`bytes.decode` rejects them. -/
def utf8DecodeLoop : Nat → List Nat → List Char → Option (List Char)
  | _, [], acc => some acc.reverse
  | 0, _ :: _, _ => none
  | fuel + 1, b :: rest, acc =>
    if b < 0x80 then utf8DecodeLoop fuel rest (Char.ofNat b :: acc)
    else if b < 0xC2 then none
    else if b < 0xE0 then
      match rest with
      | b1 :: r =>
        if 0x80 ≤ b1 ∧ b1 < 0xC0 then
          utf8DecodeLoop fuel r (Char.ofNat ((b - 0xC0) * 64 + (b1 - 0x80)) :: acc)
        else none
      | _ => none
    else if b < 0xF0 then
      match rest with
      | b1 :: b2 :: r =>
        let lo1 := if b = 0xE0 then 0xA0 else 0x80
        let hi1 := if b = 0xED then 0xA0 else 0xC0
        if (lo1 ≤ b1 ∧ b1 < hi1) ∧ (0x80 ≤ b2 ∧ b2 < 0xC0) then
          utf8DecodeLoop fuel r
            (Char.ofNat ((b - 0xE0) * 4096 + (b1 - 0x80) * 64 + (b2 - 0x80)) :: acc)
        else none
      | _ => none
    else if b < 0xF5 then
      match rest with
      | b1 :: b2 :: b3 :: r =>
        let lo1 := if b = 0xF0 then 0x90 else 0x80
        let hi1 := if b = 0xF4 then 0x90 else 0xC0
        if (lo1 ≤ b1 ∧ b1 < hi1) ∧ (0x80 ≤ b2 ∧ b2 < 0xC0) ∧ (0x80 ≤ b3 ∧ b3 < 0xC0) then
          utf8DecodeLoop fuel r
            (Char.ofNat ((b - 0xF0) * 262144 + (b1 - 0x80) * 4096 + (b2 - 0x80) * 64 +
              (b3 - 0x80)) :: acc)
        else none
      | _ => none
    else none

/-- Model of Python strict `bytes.decode` for UTF-8; `none` models the
`UnicodeDecodeError` exception. -/
def utf8Decode (bs : List Nat) : Option String :=
  (utf8DecodeLoop bs.length bs []).map fun cs => String.mk cs

example : utf8Decode [115, 101, 99, 114, 101, 116] = some "secret" := by decide

example : utf8Decode [0xC0, 0x80] = none := by decide

example : utf8Decode (utf8Encode "héllo•") = some "héllo•" := by decide

/-- Digits of an ASCII decimal literal, `none` when a non-digit occurs or
the list is empty. -/
def digitsToNat : List Char → Option Nat
  | [] => none
  | cs => cs.foldl (fun acc c =>
      match acc with
      | none => none
      | some n => if c.isDigit then some (n * 10 + (c.toNat - 48)) else none) (some 0)

/-- Characters Python treats as whitespace, restricted to ASCII. -/
def isAsciiSpace (c : Char) : Bool :=
  c.toNat = 32 ∨ c.toNat = 9 ∨ c.toNat = 10 ∨ c.toNat = 13 ∨ c.toNat = 11 ∨ c.toNat = 12

/-- Whitespace stripping from both ends, as Python `str.strip` does. -/
def pyStrip (s : String) : String :=
  String.mk (((s.data.dropWhile isAsciiSpace).reverse.dropWhile isAsciiSpace).reverse)

/-- Model of Python `int(...)` on a string: surrounding whitespace stripped,
optional sign, ASCII decimal digits; `none` models the `ValueError`
exception.  (Underscore separators and non-ASCII digits, which Python also
accepts, are not modelled; the program only ever parses the leading
encryption-type digit of a cipher string.) -/
def pyInt (s : String) : Option Int :=
  let t := pyStrip s
  match t.data with
  | '-' :: rest => (digitsToNat rest).map fun n => -(n : Int)
  | '+' :: rest => (digitsToNat rest).map fun n => (n : Int)
  | l => (digitsToNat l).map fun n => (n : Int)

example : pyInt "2" = some 2 := by decide

example : pyInt "x" = none := by decide

/-- Truthiness of a Python value that is either `None` or a string. -/
def optStrTruthy : Option String → Bool
  | none => false
  | some s => !s.data.isEmpty

/-- Truthiness of a Python value that is either `None` or a bytes object. -/
def optBytesTruthy : Option (List Nat) → Bool
  | none => false
  | some b => !b.isEmpty

/-- Python `x or d` for a decrypted optional string and a string default. -/
def pyOrStr (x : Option String) (d : String) : String :=
  match x with
  | some s => if s.isEmpty then d else s
  | none => d

/-- Model of Python `str.lower` (ASCII case folding; the full Unicode
folding Python applies agrees with this on every string the program
handles). -/
def pyLower (s : String) : String :=
  String.mk (s.data.map Char.toLower)

/-- Python substring membership `needle in hay` on character lists. -/
def containsSub (needle : List Char) : List Char → Bool
  | [] => needle.isEmpty
  | c :: rest => needle.isPrefixOf (c :: rest) || containsSub needle rest

example : containsSub "it".data "GitHub".data = true := by decide

example : containsSub "x".data "GitHub".data = false := by decide

/-- Core loop of Python `str.split` with a one-character separator,
operating right to left on the character list. -/
def splitChar (sep : Char) : List Char → List (List Char)
  | [] => [[]]
  | c :: rest =>
    let r := splitChar sep rest
    if c = sep then [] :: r
    else
      match r with
      | h :: t => (c :: h) :: t
      | [] => [[c]]

/-- Model of Python `str.split(sep)` for the one-character separators the
program uses (the dot and the pipe). -/
def pySplit (sep : Char) (s : String) : List String :=
  (splitChar sep s.data).map fun l => String.mk l

example : pySplit '.' "2.ab|cd" = ["2", "ab|cd"] := by decide

example : pySplit '|' "ab|cd|ef|gh" = ["ab", "cd", "ef", "gh"] := by decide

example : pySplit '.' "" = [""] := by decide

/-! ## The CipherString codec

Translation of the parsing and decryption logic shared verbatim by
`_decrypt_bytes_with_keys` (lines 300-317) and `_decrypt_string`
(lines 370-385) of `core/bitwarden_full.py`: split on the dot (exactly two
parts), parse the integer encryption type, split the second part on the
pipe (at least two subparts), base64-decode IV, data and — when a third
subpart exists — the MAC.  Any failure raises in Python and is caught by
the surrounding `except`, which the `Option` result models. -/

/-- Parsed components of an encrypted string: encryption type, IV bytes,
data bytes and optional MAC bytes. -/
def parseCipherString (s : String) :
    Option (Int × List Nat × List Nat × Option (List Nat)) :=
  let parts := pySplit '.' s
  if parts.length ≠ 2 then none
  else
    match pyInt (parts.getD 0 "") with
    | none => none
    | some enc_type =>
      let cipher_parts := pySplit '|' (parts.getD 1 "")
      if cipher_parts.length < 2 then none
      else
        match pyB64Decode (cipher_parts.getD 0 ""), pyB64Decode (cipher_parts.getD 1 "") with
        | some iv, some data =>
          if 2 < cipher_parts.length then
            match pyB64Decode (cipher_parts.getD 2 "") with
            | some mac => some (enc_type, iv, data, some mac)
            | none => none
          else some (enc_type, iv, data, none)
        | _, _ => none

/-- Stripping of PKCS#7 padding exactly as the source performs it
(`padding_length = decrypted[-1]; decrypted = decrypted[:-padding_length]`):
the last byte is removed-count, with no validation; a last byte of zero
makes the Python slice `[:-0]` empty. -/
def pyStripPad (d : List Nat) : List Nat :=
  let p := d.getLastD 0
  if p == 0 then [] else d.take (d.length - p)

/-- Validity of PKCS#7 padding as the specification describes it: the pad
length is the last byte, it must be positive, at most 16, and every padding
byte must equal it.  (Spec-side definition, for comparison with the
source's unconditional stripping.) -/
def specPkcs7Valid (d : List Nat) : Bool :=
  let p := d.getLastD 0
  decide (0 < p ∧ p ≤ 16 ∧ p ≤ d.length) && (d.drop (d.length - p)).all fun b => b == p

/-- Translation of `_expand_key` (lines 122-146): a 64-byte key splits into
its two halves; a 32-byte key expands by single-block HKDF-Expand, encrypt
key first; any other length falls through to `key[:32], key[:32]` after a
debug print — no error is raised. -/
def expandKey (key : List Nat) : List Nat × List Nat :=
  if key.length = 64 then
    (key.take 32, (key.drop 32).take 32)
  else if key.length = 32 then
    ((hmacSha256 key [101, 110, 99, 1]).take 32, (hmacSha256 key [109, 97, 99, 1]).take 32)
  else
    (key.take 32, key.take 32)

/-- Variant of `expandKey` computing the MAC-key HMAC before the
encryption-key HMAC, to state that the two pseudorandom-function
computations commute. -/
def expandKeyMacFirst (key : List Nat) : List Nat × List Nat :=
  if key.length = 64 then
    (key.take 32, (key.drop 32).take 32)
  else if key.length = 32 then
    let mk := (hmacSha256 key [109, 97, 99, 1]).take 32
    let ek := (hmacSha256 key [101, 110, 99, 1]).take 32
    (ek, mk)
  else
    (key.take 32, key.take 32)

/-- Shape of the abstract AES-256-CBC decryption primitive: key, IV and
ciphertext to plaintext, `none` modelling a raised exception (wrong key or
IV size, ciphertext not a multiple of the block size). -/
abbrev AesDec := List Nat → List Nat → List Nat → Option (List Nat)

/-- Translation of `_decrypt_bytes_with_keys` (lines 294-362): parse the
encrypted string, verify the MAC when both a MAC component and a MAC key
are present (mismatch returns `None` before any decryption), then for
encryption types 0 and 2 run AES-CBC under the first 32 bytes of the
encryption key and strip PKCS#7 padding, returning raw bytes.  An empty
`decrypted` makes `decrypted[-1]` raise, which the `except` catches. -/
def decryptBytesWithKeys (aes : AesDec) (encrypted_string : String)
    (enc_key mac_key : List Nat) : Option (List Nat) :=
  if encrypted_string.data.isEmpty then none
  else
    match parseCipherString encrypted_string with
    | none => none
    | some (enc_type, iv, data, mac) =>
      let macOk : Bool :=
        match mac with
        | some m =>
          if !m.isEmpty && !mac_key.isEmpty then hmacSha256 mac_key (iv ++ data) == m
          else true
        | none => true
      if !macOk then none
      else if enc_type == 0 || enc_type == 2 then
        match aes (enc_key.take 32) iv data with
        | none => none
        | some decrypted =>
          if decrypted.isEmpty then none else some (pyStripPad decrypted)
      else none

/-- Translation of `_derive_key` (lines 81-90): PBKDF2-HMAC-SHA256 over the
UTF-8 password with a 32-byte output. -/
def deriveKey (password : String) (salt : List Nat) (iterations : Nat) : List Nat :=
  pbkdf2Sha256 (utf8Encode password) salt iterations 32

/-- Translation of `_make_master_key` (lines 96-109): the salt is the
lower-cased email as UTF-8 bytes, and the master key is the PBKDF2
derivation under the session's iteration count. -/
def makeMasterKey (password email : String) (kdf_iterations : Nat) : List Nat :=
  deriveKey password (utf8Encode (pyLower email)) kdf_iterations

/-! ## The session state machine

Translation of the `BitwardenFullClient` instance state and its mutating
operations.  Network responses are explicit parameters: a prelogin response
is the resolved iteration count of a 200-status body (`none` for any
failure), a token response is either the token pair or the extracted error
message, a profile response is `some` resolved `Key` field for a
200-status body (`none` for any failure), and a sync response is `some`
cipher list for a 200-status body. -/

/-- The mutable instance fields of `BitwardenFullClient` (lines 30-48). -/
structure ClientState where
  access_token : Option String
  refresh_token : Option String
  master_key : Option (List Nat)
  symmetric_key : Option (List Nat)
  enc_key : Option (List Nat)
  mac_key : Option (List Nat)
  email : Option String
  password : Option String
  kdf_iterations : Nat
  identity_url : String
  api_url : String
deriving Repr, DecidableEq

/-- The client state as `__init__` leaves it before loading a session. -/
def initialState : ClientState :=
  { access_token := none, refresh_token := none, master_key := none, symmetric_key := none,
    enc_key := none, mac_key := none, email := none, password := none,
    kdf_iterations := 100000,
    identity_url := "https://identity.bitwarden.com", api_url := "https://api.bitwarden.com" }

/-- The persisted session record written by `_save_session` (lines 68-79):
tokens, email, server URLs and the KDF iteration count. -/
structure SessionRecord where
  access_token : Option String
  refresh_token : Option String
  email : Option String
  identity_url : String
  api_url : String
  kdf_iterations : Nat
deriving Repr, DecidableEq

/-- Translation of `_save_session`: the saved record is assembled from the
token, email, URL and iteration fields only. -/
def saveSession (st : ClientState) : SessionRecord :=
  { access_token := st.access_token, refresh_token := st.refresh_token,
    email := st.email, identity_url := st.identity_url, api_url := st.api_url,
    kdf_iterations := st.kdf_iterations }

/-- Translation of `get_status` (lines 439-447): no (truthy) access token
means logged out, a token without a (truthy) master key means locked,
otherwise unlocked. -/
def getStatus (st : ClientState) : String :=
  if !optStrTruthy st.access_token then "logged_out"
  else if !optBytesTruthy st.master_key then "locked"
  else "unlocked"

/-- Translation of `_decrypt_string` (lines 364-437): parse, choose the
supplied key or fall back to the session encryption key, recompute the MAC
when a MAC component and the session MAC key are present — but, unlike the
raw-bytes path, a mismatch is only logged (`return None` is commented out
in the source) and decryption proceeds — then AES-CBC-decrypt for types 0
and 2, strip padding and decode UTF-8. -/
def decryptString (aes : AesDec) (st : ClientState) (encrypted_string : Option String)
    (key : Option (List Nat)) : Option String :=
  if !optStrTruthy encrypted_string then none
  else
    match parseCipherString (encrypted_string.getD "") with
    | none => none
    | some (enc_type, iv, data, mac) =>
      match (match key with | none => st.enc_key | some k => some k) with
      | none => none
      | some k =>
        let _macMismatchLogged : Bool :=
          match mac, st.mac_key with
          | some m, some mk =>
            if !m.isEmpty && !mk.isEmpty then !(hmacSha256 mk (iv ++ data) == m) else false
          | _, _ => false
        if enc_type == 0 || enc_type == 2 then
          match aes (k.take 32) iv data with
          | none => none
          | some decrypted =>
            if decrypted.isEmpty then none else utf8Decode (pyStripPad decrypted)
        else none

/-- The tail of `_fetch_and_decrypt_keys` (lines 273-285): store the
decrypted symmetric key, and when it is truthy expand it into the working
encryption and MAC keys. -/
def fetchSetKeys (st : ClientState) (sym : Option (List Nat)) : ClientState :=
  if optBytesTruthy sym then
    { { st with symmetric_key := sym } with
      enc_key := some (expandKey (sym.getD [])).1, mac_key := some (expandKey (sym.getD [])).2 }
  else { st with symmetric_key := sym }

/-- Head of the translation of `_fetch_and_decrypt_keys` (lines 239-272):
require a 200 profile response with a truthy `Key` field and a present
master key (a missing one raises `len(None)`, caught by the `except`,
leaving the state unchanged), expand the master key and decrypt the
wrapped symmetric key with the expanded pair. -/
def fetchAndDecryptKeys (aes : AesDec) (profileResp : Option (Option String))
    (st : ClientState) : ClientState :=
  match profileResp with
  | none => st
  | some keyField =>
    if !optStrTruthy keyField then st
    else
      match st.master_key with
      | none => st
      | some mk =>
        fetchSetKeys st
          (decryptBytesWithKeys aes (keyField.getD "") (expandKey mk).1 (expandKey mk).2)

/-- The KDF-iteration refresh at the start of `unlock` (lines 457-472): only
when the stored count is still the untrusted default does a successful
prelogin response overwrite it. -/
def applyPreloginUnlock (prelogin : Option Nat) (st : ClientState) : ClientState :=
  if st.kdf_iterations = 100000 then
    match prelogin with
    | some n => { st with kdf_iterations := n }
    | none => st
  else st

/-- Translation of `unlock` (lines 449-504): require a saved email, refresh
the iteration count if it is still the default, derive the master key,
attempt the key fetch-and-decrypt, and report success exactly when a truthy
symmetric key resulted; on failure the master key is cleared and the
message is "Incorrect password". -/
def unlock (aes : AesDec) (prelogin : Option Nat) (profileResp : Option (Option String))
    (st : ClientState) (password : String) : (Bool × String) × ClientState :=
  if !optStrTruthy st.email then ((false, "No saved session. Please login first."), st)
  else
    let st1 := applyPreloginUnlock prelogin st
    let mk := makeMasterKey password (st1.email.getD "") st1.kdf_iterations
    let st2 := { st1 with master_key := some mk, password := some password }
    let st3 := fetchAndDecryptKeys aes profileResp st2
    if optBytesTruthy st3.symmetric_key then
      ((true, "Unlocked successfully"), { st3 with password := none })
    else
      ((false, "Incorrect password"), { st3 with master_key := none, password := none })

/-- The KDF-iteration update at the start of `login` (lines 158-161): a
successful prelogin response always overwrites the stored count. -/
def applyPreloginLogin (prelogin : Option Nat) (st : ClientState) : ClientState :=
  match prelogin with
  | some n => { st with kdf_iterations := n }
  | none => st

/-- Translation of `login` (lines 148-224): update the iteration count from
prelogin, derive the master key and stash the password, then exchange the
password hash for tokens.  On a 200 token response the tokens and email are
stored, the keys are fetched and decrypted, the password is cleared and
login reports success; on failure only the password is cleared — the
derived master key stays in the instance field — and the extracted error
message is returned.  (The password-hash computation and the session save
have no effect on the modelled state.) -/
def login (aes : AesDec) (prelogin : Option Nat)
    (authResp : (String × Option String) ⊕ String) (profileResp : Option (Option String))
    (st : ClientState) (email password : String) : (Bool × String) × ClientState :=
  let st1 := applyPreloginLogin prelogin st
  let mk := makeMasterKey password email st1.kdf_iterations
  let st2 := { st1 with master_key := some mk, password := some password }
  match authResp with
  | Sum.inl tk =>
    let st3 := { st2 with access_token := some tk.1, refresh_token := tk.2, email := some email }
    let st4 := fetchAndDecryptKeys aes profileResp st3
    ((true, "Login successful"), { st4 with password := none })
  | Sum.inr errMsg =>
    ((false, errMsg), { st2 with password := none })

/-- Translation of `lock` (lines 506-512): every key field and the stashed
password are cleared; the tokens survive. -/
def lock (st : ClientState) : ClientState :=
  { st with
    master_key := none, symmetric_key := none, enc_key := none, mac_key := none,
    password := none }

/-! ## The vault sync engine

Translation of `search_items` (lines 551-595) and `_decrypt_cipher`
(lines 597-690).  A synced cipher is modelled with its dual-convention
field lookups (`cipher.get("Name") or cipher.get("name")` and the like)
already resolved into one optional value per field, which is exactly the
information the Python code extracts from the JSON object. -/

/-- The resolved fields of a `Login` sub-object. -/
structure CipherLoginData where
  username : Option String
  password : Option String
  uris : List (Option String)
  totp : Option String
deriving Repr, DecidableEq

/-- The resolved fields of a `Card` sub-object. -/
structure CipherCardData where
  cardholderName : Option String
  brand : Option String
  number : Option String
  expMonth : Option String
  expYear : Option String
  code : Option String
deriving Repr, DecidableEq

/-- The resolved fields of an `Identity` sub-object. -/
structure CipherIdentityData where
  firstName : Option String
  lastName : Option String
  email : Option String
  phone : Option String
  address1 : Option String
  address2 : Option String
deriving Repr, DecidableEq

/-- The resolved fields of one custom field object. -/
structure CipherFieldData where
  name : Option String
  value : Option String
  ftype : Option Nat
deriving Repr, DecidableEq

/-- One synced cipher object with its dual-convention lookups resolved. -/
structure Cipher where
  ctype : Option Nat
  id : Option String
  name : Option String
  notes : Option String
  favorite : Bool
  deletedDate : Option String
  login : Option CipherLoginData
  card : Option CipherCardData
  identity : Option CipherIdentityData
  fields : List CipherFieldData
deriving Repr, DecidableEq

/-- An empty `Login` sub-object, as `cipher.get(..., \x7b\x7d)` yields. -/
def emptyLogin : CipherLoginData := ⟨none, none, [], none⟩

/-- An empty `Card` sub-object. -/
def emptyCard : CipherCardData := ⟨none, none, none, none, none, none⟩

/-- An empty `Identity` sub-object. -/
def emptyIdentity : CipherIdentityData := ⟨none, none, none, none, none, none⟩

/-- The decrypted result dictionary built by `_decrypt_cipher`; dictionary
keys that are only present for some item types are optional fields. -/
structure Item where
  id : Option String
  name : String
  notes : String
  item_type : Option Nat
  favorite : Bool
  type_name : Option String
  username : Option String
  password : Option String
  url : Option String
  totp_seed : Option (Option String)
  has_totp : Option Bool
  cardholder : Option String
  brand : Option String
  number_masked : Option String
  number_full : Option String
  exp_month : Option String
  exp_year : Option String
  code : Option String
  first_name : Option String
  last_name : Option String
  id_email : Option String
  phone : Option String
  address : Option String
  custom_fields : Option (List CipherFieldData)
deriving Repr, DecidableEq, Inhabited

/-- The result dictionary as first assembled (lines 611-617), before any
type-specific keys are added. -/
def baseItem (cipher : Cipher) (name notes : String) : Item :=
  { id := cipher.id, name := name, notes := notes, item_type := cipher.ctype,
    favorite := cipher.favorite, type_name := none, username := none, password := none,
    url := none, totp_seed := none, has_totp := none, cardholder := none, brand := none,
    number_masked := none, number_full := none, exp_month := none, exp_year := none,
    code := none, first_name := none, last_name := none, id_email := none, phone := none,
    address := none, custom_fields := none }

/-- Translation of `_decrypt_cipher` (lines 597-690): decrypt name (with
the "Unknown" fallback) and notes, then the variant fields selected by the
integer type tag, then the custom fields.  The masked card number is twelve
bullet characters followed by the last four digits whenever the decrypted
number has more than four characters. -/
def decryptCipher (aes : AesDec) (st : ClientState) (cipher : Cipher) : Option Item :=
  let name := pyOrStr (decryptString aes st cipher.name none) "Unknown"
  let notes := pyOrStr (decryptString aes st cipher.notes none) ""
  let base := baseItem cipher name notes
  let result :=
    if cipher.ctype == some 1 then
      let lg := cipher.login.getD emptyLogin
      let url :=
        match lg.uris with
        | [] => ""
        | u0 :: _ => pyOrStr (decryptString aes st u0 none) ""
      let withTotp :=
        if optStrTruthy lg.totp then
          { base with
            totp_seed := some (decryptString aes st lg.totp none), has_totp := some true }
        else { base with has_totp := some false }
      { withTotp with
        username := some (pyOrStr (decryptString aes st lg.username none) ""),
        password := some (pyOrStr (decryptString aes st lg.password none) ""),
        url := some url, type_name := some "login" }
    else if cipher.ctype == some 2 then
      { base with type_name := some "note" }
    else if cipher.ctype == some 3 then
      let cd := cipher.card.getD emptyCard
      let number := pyOrStr (decryptString aes st cd.number none) ""
      let masked :=
        if 4 < number.data.length then
          "••••••••••••" ++ String.mk (number.data.drop (number.data.length - 4))
        else number
      { base with
        cardholder := some (pyOrStr (decryptString aes st cd.cardholderName none) ""),
        brand := some (pyOrStr (decryptString aes st cd.brand none) ""),
        number_masked := some masked, number_full := some number,
        exp_month := some (pyOrStr (decryptString aes st cd.expMonth none) ""),
        exp_year := some (pyOrStr (decryptString aes st cd.expYear none) ""),
        code := some (pyOrStr (decryptString aes st cd.code none) ""),
        type_name := some "card" }
    else if cipher.ctype == some 4 then
      let idn := cipher.identity.getD emptyIdentity
      let address1 := pyOrStr (decryptString aes st idn.address1 none) ""
      let address2 := pyOrStr (decryptString aes st idn.address2 none) ""
      { base with
        first_name := some (pyOrStr (decryptString aes st idn.firstName none) ""),
        last_name := some (pyOrStr (decryptString aes st idn.lastName none) ""),
        id_email := some (pyOrStr (decryptString aes st idn.email none) ""),
        phone := some (pyOrStr (decryptString aes st idn.phone none) ""),
        address := some (pyStrip (address1 ++ " " ++ address2)), type_name := some "identity" }
    else base
  let result2 :=
    if cipher.fields.isEmpty then result
    else
      { result with
        custom_fields := some (cipher.fields.map fun f =>
          ⟨decryptString aes st f.name none, decryptString aes st f.value none, f.ftype⟩) }
  some result2

/-- The per-cipher loop of `search_items` (lines 574-589): skip soft-deleted
items, decrypt, apply the case-insensitive substring query against the
decrypted display name. -/
def searchLoop (aes : AesDec) (st : ClientState) (query : String) :
    List Cipher → List Item
  | [] => []
  | c :: rest =>
    if optStrTruthy c.deletedDate then searchLoop aes st query rest
    else
      match decryptCipher aes st c with
      | none => searchLoop aes st query rest
      | some item =>
        if !query.data.isEmpty &&
            !containsSub (pyLower query).data (pyLower item.name).data then
          searchLoop aes st query rest
        else item :: searchLoop aes st query rest

/-- Translation of `search_items` (lines 551-595): an absent access token or
absent symmetric key short-circuits to the empty list, as does any sync
request failure; otherwise each cipher of the response is filtered and
decrypted in order. -/
def searchItems (aes : AesDec) (syncResp : Option (List Cipher)) (st : ClientState)
    (query : String) : List Item :=
  if !optStrTruthy st.access_token || !optBytesTruthy st.symmetric_key then []
  else
    match syncResp with
    | none => []
    | some ciphers => searchLoop aes st query ciphers

/-- An AES stand-in used to build concrete fixtures: the "ciphertext" is
the plaintext itself, so a wire string carrying base64 of padded plaintext
decrypts to that plaintext.  It instantiates the abstract external
primitive; nothing in the embedding depends on its internals. -/
def aesId : AesDec := fun _ _ data => some data

/-! ## Helper lemmas -/

/-- Packing a valid scalar value into a character preserves the value. -/
theorem toNat_ofNat_valid {n : Nat} (h : n.isValidChar) : (Char.ofNat n).toNat = n := by
  simp [Char.ofNat, dif_pos h, Char.ofNatAux, Char.toNat, UInt32.toNat]

/-- ASCII lower-casing of a character is idempotent. -/
theorem toLower_toLower (c : Char) : c.toLower.toLower = c.toLower := by
  unfold Char.toLower
  by_cases h : c.toNat ≥ 65 ∧ c.toNat ≤ 90
  · rw [if_pos h]
    have hval : (c.toNat + 32).isValidChar := Or.inl (by omega)
    have hv : (Char.ofNat (c.toNat + 32)).toNat = c.toNat + 32 := toNat_ofNat_valid hval
    rw [if_neg]
    rw [hv]
    omega
  · rw [if_neg h, if_neg h]

/-- Lower-casing a string is idempotent. -/
theorem pyLower_idem (s : String) : pyLower (pyLower s) = pyLower s := by
  unfold pyLower
  simp only [List.map_map]
  congr 1
  exact List.map_congr_left fun c _ => toLower_toLower c

/-! ## Claim C4 -/

/-- Claim C4, counterexample: `_expand_key` on a 16-byte key is not a hard
error — it returns the key pair `(key[:32], key[:32])`, both components
equal to the whole 16-byte input. -/
theorem c4_counterexample :
    expandKey (List.replicate 16 7) = (List.replicate 16 7, List.replicate 16 7) ∧
    (List.replicate 16 7).length ≠ 32 ∧ (List.replicate 16 7).length ≠ 64 := by
  decide

/-- Claim C4 as amended: `_expand_key` on a key whose length is neither 32
nor 64 bytes does not raise; after a debug print it returns the degenerate
pair `(key[:32], key[:32])` — the truncated key duplicated as both the
encryption key and the MAC key. -/
theorem c4_unexpected_length_duplicates_key (key : List Nat)
    (h32 : key.length ≠ 32) (h64 : key.length ≠ 64) :
    expandKey key = (key.take 32, key.take 32) := by
  unfold expandKey
  rw [if_neg h64, if_neg h32]

/-- Witness for claim C4: the amended statement applied to a 5-byte key. -/
theorem c4_witness :
    expandKey (List.replicate 5 1) = ((List.replicate 5 1).take 32, (List.replicate 5 1).take 32) :=
  c4_unexpected_length_duplicates_key (List.replicate 5 1) (by decide) (by decide)

/-! ## Claim C5 -/

/-- Claim C5, counterexample: a cipher string whose second dot-part splits
into four pipe-subparts — not two or three — is still parsed successfully
(the fourth subpart is silently ignored), refuting the claim that parsing
succeeds only for exactly 2 or 3 subparts. -/
theorem c5_counterexample :
    (pySplit '|' ((pySplit '.' "2.AAAA|AAAA|AAAA|AAAA").getD 1 "")).length = 4 ∧
    parseCipherString "2.AAAA|AAAA|AAAA|AAAA" = some (2, [0, 0, 0], [0, 0, 0], some [0, 0, 0]) := by
  decide

/-- Claim C5 as amended: parsing yields components only when splitting on
the dot gives exactly 2 parts and splitting the second part on the pipe
gives at least 2 subparts (subparts beyond the third are ignored, and
Python's lenient base64 decoder skips characters outside the alphabet);
every malformed string yields `None` — the code signals parse failure by
`None`, not by a distinct `ParseError` object. -/
theorem c5_parse_success_shape (s : String)
    (ct : Int × List Nat × List Nat × Option (List Nat))
    (h : parseCipherString s = some ct) :
    (pySplit '.' s).length = 2 ∧
    2 ≤ (pySplit '|' ((pySplit '.' s).getD 1 "")).length := by
  simp only [parseCipherString] at h
  split at h
  · exact absurd h (by simp)
  · next hlen =>
    split at h
    · exact absurd h (by simp)
    · split at h
      · exact absurd h (by simp)
      · next hcp => exact ⟨by omega, by omega⟩

/-- Witness for claim C5: the amended statement applied to a well-formed
two-subpart cipher string. -/
theorem c5_witness :
    (pySplit '.' "2.AAAA|AAAA").length = 2 ∧
    2 ≤ (pySplit '|' ((pySplit '.' "2.AAAA|AAAA").getD 1 "")).length :=
  c5_parse_success_shape "2.AAAA|AAAA" (2, [0, 0, 0], [0, 0, 0], none) (by decide)

/-! ## Claim C2 -/

/-- Claim C2, counterexample: a decrypted block whose padding is invalid —
last byte 3 but the three final bytes are 67, 2, 3 rather than 3, 3, 3 —
does not produce an `InvalidPadding` error; the raw-bytes decrypt strips
three bytes anyway and returns the plaintext `[65, 66]`. -/
theorem c2_counterexample :
    specPkcs7Valid [65, 66, 67, 2, 3] = false ∧
    decryptBytesWithKeys (fun _ _ _ => some [65, 66, 67, 2, 3]) "0.AAAA|AAAA"
      (List.replicate 32 0) (List.replicate 32 0) = some [65, 66] := by
  decide

/-- Claim C2 as amended: decrypt does not validate PKCS#7 padding at all.
For every parseable MAC-less cipher string of encryption type 0 or 2 and
every decrypted block the cipher produces, the result is the block with its
last byte's worth of bytes stripped unconditionally (`pyStripPad`); no
padding check is performed and no `InvalidPadding` error exists. -/
theorem c2_padding_stripped_unvalidated (aes : AesDec) (enc_key mac_key : List Nat)
    (s : String) (t : Int) (iv data d : List Nat)
    (hs : s.data.isEmpty = false)
    (hp : parseCipherString s = some (t, iv, data, none))
    (ht : t = 0 ∨ t = 2)
    (ha : aes (enc_key.take 32) iv data = some d)
    (hd : d.isEmpty = false) :
    decryptBytesWithKeys aes s enc_key mac_key = some (pyStripPad d) := by
  rcases ht with rfl | rfl <;>
    simp [decryptBytesWithKeys, hs, hp, ha, hd]

/-- Witness for claim C2: the amended statement applied to a concrete
cipher string and a block with invalid padding (pad byte 17). -/
theorem c2_witness :
    decryptBytesWithKeys (fun _ _ _ => some [1, 2, 17]) "2.AAAA|AAAA"
      (List.replicate 32 0) (List.replicate 32 1) = some (pyStripPad [1, 2, 17]) :=
  c2_padding_stripped_unvalidated (fun _ _ _ => some [1, 2, 17]) (List.replicate 32 0)
    (List.replicate 32 1) "2.AAAA|AAAA" 2 [0, 0, 0] [0, 0, 0] [1, 2, 17]
    (by decide) (by decide) (Or.inr rfl) rfl (by decide)

/-! ## Claim C7 -/

/-- Claim C7: `_expand_key` on a 64-byte key returns exactly the two
32-byte halves with no further derivation; on a 32-byte key it returns the
first 32 bytes of `HMAC-SHA256(key, "enc" || 0x01)` and of
`HMAC-SHA256(key, "mac" || 0x01)`, both exactly 32 bytes, deterministic
(the embedding is a function), and unchanged when the two HMAC
computations are performed in the opposite order; at the all-zero 32-byte
key the two outputs are distinct. -/
theorem c7_expand_key_spec :
    (∀ k : List Nat, k.length = 64 → expandKey k = (k.take 32, k.drop 32)) ∧
    (∀ k : List Nat, k.length = 32 →
      expandKey k =
        ((hmacSha256 k [101, 110, 99, 1]).take 32, (hmacSha256 k [109, 97, 99, 1]).take 32) ∧
      (expandKey k).1.length = 32 ∧ (expandKey k).2.length = 32 ∧
      expandKey k = expandKeyMacFirst k) ∧
    (expandKey (List.replicate 32 0)).1 ≠ (expandKey (List.replicate 32 0)).2 := by
  refine ⟨?_, ?_, ?_⟩
  · intro k hk
    unfold expandKey
    rw [if_pos hk]
    have hd : (k.drop 32).take 32 = k.drop 32 :=
      List.take_of_length_le (by simp [hk])
    rw [hd]
  · intro k hk
    have h64 : k.length ≠ 64 := by omega
    refine ⟨?_, ?_, ?_, ?_⟩
    · unfold expandKey
      rw [if_neg h64, if_pos hk]
    · unfold expandKey
      rw [if_neg h64, if_pos hk]
      simp [List.length_take, hmacSha256_length]
    · unfold expandKey
      rw [if_neg h64, if_pos hk]
      simp [List.length_take, hmacSha256_length]
    · unfold expandKey expandKeyMacFirst
      simp only [if_neg h64, if_pos hk]
  · decide

/-- Witness for claim C7: the split case at a concrete 64-byte key and the
32-byte-output case at a concrete 32-byte key. -/
theorem c7_witness :
    expandKey (List.replicate 64 7) =
      ((List.replicate 64 7).take 32, (List.replicate 64 7).drop 32) ∧
    (expandKey (List.replicate 32 3)).1.length = 32 :=
  ⟨c7_expand_key_spec.1 (List.replicate 64 7) (by decide),
   (c7_expand_key_spec.2.1 (List.replicate 32 3) (by decide)).2.1⟩

/-! ## Claim C9 -/

/-- Claim C9: `deriveMasterKey` always returns exactly 32 bytes, is
computed as PBKDF2-HMAC-SHA256 over the password with the lower-cased
UTF-8 email as salt, is insensitive to the email's letter case, and is
deterministic (equal inputs give equal outputs, being a function of its
arguments). -/
theorem c9_master_key_derivation (p e : String) (i : Nat) (hi : 0 < i) :
    (makeMasterKey p e i).length = 32 ∧
    makeMasterKey p e i = pbkdf2Sha256 (utf8Encode p) (utf8Encode (pyLower e)) i 32 ∧
    makeMasterKey p e i = makeMasterKey p (pyLower e) i := by
  refine ⟨pbkdf2Sha256_length _ _ _, rfl, ?_⟩
  unfold makeMasterKey deriveKey
  rw [pyLower_idem]

/-- Witness for claim C9: the derivation properties at a concrete password,
mixed-case email and a single iteration. -/
theorem c9_witness :
    (makeMasterKey "p" "A@B.c" 1).length = 32 ∧
    makeMasterKey "p" "A@B.c" 1 =
      pbkdf2Sha256 (utf8Encode "p") (utf8Encode (pyLower "A@B.c")) 1 32 ∧
    makeMasterKey "p" "A@B.c" 1 = makeMasterKey "p" (pyLower "A@B.c") 1 :=
  c9_master_key_derivation "p" "A@B.c" 1 (by decide)

/-! ## Helper lemmas about the state machine -/

/-- The master key always has 32 bytes, being a PBKDF2 output. -/
theorem makeMasterKey_length (p e : String) (i : Nat) : (makeMasterKey p e i).length = 32 :=
  pbkdf2Sha256_length _ _ _

/-- A 32-byte list is truthy. -/
theorem optBytesTruthy_of_length32 {b : List Nat} (h : b.length = 32) :
    optBytesTruthy (some b) = true := by
  unfold optBytesTruthy
  cases b with
  | nil => simp at h
  | cons x xs => rfl

/-- The unlock-side prelogin refresh touches only the iteration count. -/
theorem applyPreloginUnlock_fields (prelogin : Option Nat) (st : ClientState) :
    (applyPreloginUnlock prelogin st).access_token = st.access_token ∧
    (applyPreloginUnlock prelogin st).email = st.email ∧
    (applyPreloginUnlock prelogin st).master_key = st.master_key := by
  unfold applyPreloginUnlock
  rcases prelogin with _ | n <;> split <;> exact ⟨rfl, rfl, rfl⟩

/-- The login-side prelogin update touches only the iteration count. -/
theorem applyPreloginLogin_fields (prelogin : Option Nat) (st : ClientState) :
    (applyPreloginLogin prelogin st).access_token = st.access_token ∧
    (applyPreloginLogin prelogin st).symmetric_key = st.symmetric_key := by
  rcases prelogin with _ | n <;> exact ⟨rfl, rfl⟩

/-- Storing the symmetric key touches neither the tokens, the master key
nor the email, and records exactly the supplied value. -/
theorem fetchSetKeys_fields (st : ClientState) (sym : Option (List Nat)) :
    (fetchSetKeys st sym).access_token = st.access_token ∧
    (fetchSetKeys st sym).master_key = st.master_key ∧
    (fetchSetKeys st sym).email = st.email ∧
    (fetchSetKeys st sym).symmetric_key = sym := by
  unfold fetchSetKeys
  split <;> exact ⟨rfl, rfl, rfl, rfl⟩

/-- Fetching and decrypting keys never changes the access token, the master
key or the email. -/
theorem fetchAndDecryptKeys_fields (aes : AesDec) (profileResp : Option (Option String))
    (st : ClientState) :
    (fetchAndDecryptKeys aes profileResp st).access_token = st.access_token ∧
    (fetchAndDecryptKeys aes profileResp st).master_key = st.master_key ∧
    (fetchAndDecryptKeys aes profileResp st).email = st.email := by
  unfold fetchAndDecryptKeys
  rcases profileResp with _ | keyField
  · exact ⟨rfl, rfl, rfl⟩
  · dsimp only
    by_cases hkf : (!optStrTruthy keyField) = true
    · rw [if_pos hkf]
      exact ⟨rfl, rfl, rfl⟩
    · rw [if_neg hkf]
      cases hm : st.master_key with
      | none => exact ⟨rfl, hm, rfl⟩
      | some mk =>
        refine ⟨(fetchSetKeys_fields _ _).1, ?_, (fetchSetKeys_fields _ _).2.2.1⟩
        rw [(fetchSetKeys_fields _ _).2.1]
        exact hm

/-! ## Claim C6 -/

/-- Claim C6, counterexample: after a login attempt whose token exchange
fails (prelogin advertised 2 iterations, the identity endpoint rejected the
credentials), the client is logged out — yet the derived master key is
still held in the instance field, refuting the claim that no master key
remains after a failed login. -/
theorem c6_counterexample :
    optBytesTruthy (login aesId (some 2) (Sum.inr "Invalid credentials") none initialState
      "a@b.c" "pw").2.master_key = true ∧
    getStatus (login aesId (some 2) (Sum.inr "Invalid credentials") none initialState
      "a@b.c" "pw").2 = "logged_out" := by
  constructor
  · exact optBytesTruthy_of_length32 (makeMasterKey_length "pw" "a@b.c" 2)
  · rfl

/-- Claim C6 as amended: the persisted session record is assembled only
from tokens, email, server URLs and the KDF iteration count — it is
independent of every key field and of the stashed password — but the
master key is NOT ephemeral across a failed login: when the token exchange
fails, `login` clears only the password and leaves the freshly derived
master key in memory while reporting the error. -/
theorem c6_session_record_and_failed_login :
    (∀ (st : ClientState) (k1 k2 k3 k4 : Option (List Nat)) (p : Option String),
      saveSession { st with
        master_key := k1, symmetric_key := k2, enc_key := k3, mac_key := k4,
        password := p } = saveSession st) ∧
    (∀ (aes : AesDec) (prelogin : Option Nat) (profileResp : Option (Option String))
      (st : ClientState) (email password errMsg : String),
      (login aes prelogin (Sum.inr errMsg) profileResp st email password).2.master_key =
        some (makeMasterKey password email (applyPreloginLogin prelogin st).kdf_iterations) ∧
      (login aes prelogin (Sum.inr errMsg) profileResp st email password).1 =
        (false, errMsg)) := by
  constructor
  · intro st k1 k2 k3 k4 p
    rfl
  · intro aes prelogin profileResp st email password errMsg
    exact ⟨rfl, rfl⟩

/-! ## Claim C10 -/

/-- Claim C10: the reported "unlocked" status is derived solely from the
presence of an access token and a master key.  When the token exchange of
`login` succeeds with a truthy token but no truthy symmetric key results
(profile fetch failure or symmetric-key decryption failure), login still
reports success, the status is "unlocked", and every item search returns
the empty list instead of an error. -/
theorem c10_status_without_symmetric_key (aes : AesDec) (prelogin : Option Nat)
    (tok : String) (rtok : Option String) (profileResp : Option (Option String))
    (st : ClientState) (email password : String)
    (htok : tok.data.isEmpty = false)
    (hsym : optBytesTruthy
      (login aes prelogin (Sum.inl (tok, rtok)) profileResp st email password).2.symmetric_key =
      false) :
    (login aes prelogin (Sum.inl (tok, rtok)) profileResp st email password).1 =
      (true, "Login successful") ∧
    getStatus (login aes prelogin (Sum.inl (tok, rtok)) profileResp st email password).2 =
      "unlocked" ∧
    ∀ (aes2 : AesDec) (syncResp : Option (List Cipher)) (query : String),
      searchItems aes2 syncResp
        (login aes prelogin (Sum.inl (tok, rtok)) profileResp st email password).2 query = [] := by
  refine ⟨rfl, ?_, ?_⟩
  · unfold getStatus
    have hat : (login aes prelogin (Sum.inl (tok, rtok)) profileResp st email
        password).2.access_token = some tok := by
      show (fetchAndDecryptKeys aes profileResp _).access_token = some tok
      rw [(fetchAndDecryptKeys_fields _ _ _).1]
    have hmk : (login aes prelogin (Sum.inl (tok, rtok)) profileResp st email
        password).2.master_key =
        some (makeMasterKey password email (applyPreloginLogin prelogin st).kdf_iterations) := by
      show (fetchAndDecryptKeys aes profileResp _).master_key = _
      rw [(fetchAndDecryptKeys_fields _ _ _).2.1]
    rw [hat, hmk]
    have h1 : optStrTruthy (some tok) = true := by
      simp [optStrTruthy, htok]
    have h2 := optBytesTruthy_of_length32 (makeMasterKey_length password email
      (applyPreloginLogin prelogin st).kdf_iterations)
    rw [h1, h2]
    rfl
  · intro aes2 syncResp query
    unfold searchItems
    rw [hsym]
    simp

/-- Witness for claim C10: a concrete login whose profile fetch fails
(status not 200) leaves no symmetric key; the theorem then gives the
"unlocked" status and the empty search result. -/
theorem c10_witness :
    getStatus (login aesId (some 1) (Sum.inl ("tok", none)) none initialState
      "a@b.c" "p").2 = "unlocked" ∧
    searchItems aesId (some []) (login aesId (some 1) (Sum.inl ("tok", none)) none initialState
      "a@b.c" "p").2 "" = [] :=
  ⟨(c10_status_without_symmetric_key aesId (some 1) "tok" none none initialState
      "a@b.c" "p" rfl rfl).2.1,
   (c10_status_without_symmetric_key aesId (some 1) "tok" none none initialState
      "a@b.c" "p" rfl rfl).2.2 aesId (some []) ""⟩

/-! ## Claim C3 -/

/-- Claim C3: against a saved session (stored email, stored access token),
an unlock whose derived keys fail to decrypt the wrapped symmetric key —
which is what an incorrect password causes, since the wrong master key
makes the MAC check fail — returns `(False, "Incorrect password")`, clears
the master key while retaining the access token, and leaves the reported
status at "locked", not "unlocked". -/
theorem c3_unlock_incorrect_password_locks (aes : AesDec) (prelogin : Option Nat)
    (ek : String) (st : ClientState) (password : String)
    (hemail : optStrTruthy st.email = true)
    (htok : optStrTruthy st.access_token = true)
    (hek : ek.data.isEmpty = false)
    (hdec : decryptBytesWithKeys aes ek
        (expandKey (makeMasterKey password ((applyPreloginUnlock prelogin st).email.getD "")
          (applyPreloginUnlock prelogin st).kdf_iterations)).1
        (expandKey (makeMasterKey password ((applyPreloginUnlock prelogin st).email.getD "")
          (applyPreloginUnlock prelogin st).kdf_iterations)).2 = none) :
    (unlock aes prelogin (some (some ek)) st password).1 = (false, "Incorrect password") ∧
    (unlock aes prelogin (some (some ek)) st password).2.master_key = none ∧
    (unlock aes prelogin (some (some ek)) st password).2.access_token = st.access_token ∧
    getStatus (unlock aes prelogin (some (some ek)) st password).2 = "locked" := by
  have hpre := applyPreloginUnlock_fields prelogin st
  have hu : unlock aes prelogin (some (some ek)) st password =
      ((false, "Incorrect password"),
        { applyPreloginUnlock prelogin st with
          master_key := none, password := none, symmetric_key := none }) := by
    have h2 : fetchAndDecryptKeys aes (some (some ek))
        { applyPreloginUnlock prelogin st with
          master_key := some (makeMasterKey password
            ((applyPreloginUnlock prelogin st).email.getD "")
            (applyPreloginUnlock prelogin st).kdf_iterations),
          password := some password } =
        { applyPreloginUnlock prelogin st with
          master_key := some (makeMasterKey password
            ((applyPreloginUnlock prelogin st).email.getD "")
            (applyPreloginUnlock prelogin st).kdf_iterations),
          password := some password, symmetric_key := none } := by
      unfold fetchAndDecryptKeys
      dsimp only
      simp only [optStrTruthy]
      rw [if_neg (by rw [hek]; simp)]
      simp only [Option.getD_some]
      rw [hdec]
      unfold fetchSetKeys
      rw [if_neg (by decide)]
    unfold unlock
    rw [if_neg (by rw [hemail]; simp)]
    dsimp only
    rw [h2]
    dsimp only
    simp only [optBytesTruthy]
    rw [if_neg (by simp)]
  rw [hu]
  refine ⟨rfl, rfl, hpre.1, ?_⟩
  unfold getStatus
  dsimp only
  rw [hpre.1]
  simp [htok, optBytesTruthy]

/-- A locked saved session used to witness the unlock failure path. -/
def stC3 : ClientState :=
  { initialState with access_token := some "t", email := some "a@b.c", kdf_iterations := 2 }

/-- Witness for claim C3: a concrete saved session whose profile returns a
wrapped key that the derived keys cannot decrypt (here the stored key is
not even parseable, so the decryption yields `None` exactly as a MAC
failure does). -/
theorem c3_witness :
    (unlock aesId none (some (some "x")) stC3 "pw").1 = (false, "Incorrect password") ∧
    (unlock aesId none (some (some "x")) stC3 "pw").2.master_key = none ∧
    (unlock aesId none (some (some "x")) stC3 "pw").2.access_token = stC3.access_token ∧
    getStatus (unlock aesId none (some (some "x")) stC3 "pw").2 = "locked" :=
  c3_unlock_incorrect_password_locks aesId none "x" stC3 "pw" rfl rfl rfl rfl

/-! ## Claim C1 -/

/-- An unlocked client state with distinct working encryption and MAC keys,
used for the per-field decryption paths. -/
def stUnlocked : ClientState :=
  { initialState with
    access_token := some "t", master_key := some (List.replicate 32 9),
    symmetric_key := some (List.replicate 32 9), enc_key := some (List.replicate 32 0),
    mac_key := some (List.replicate 32 1) }

/-- Claim C1, evaluated at the failing input: for the cipher string
`"2.AAAA|c2VjcmV0...|AAAA"` the stored MAC `[0,0,0]` differs from the
recomputed `HMAC-SHA256(macKey, iv || data)` — yet while the raw-bytes
path (`_decrypt_bytes_with_keys`) aborts with no result, the string path
(`_decrypt_string`) decrypts anyway and returns the plaintext "secret":
the MAC-mismatch abort the specification mandates for both paths is
commented out in the string path. -/
theorem c1_mac_mismatch_divergence :
    hmacSha256 (List.replicate 32 1)
        ([0, 0, 0] ++ [115, 101, 99, 114, 101, 116, 10, 10, 10, 10, 10, 10, 10, 10, 10, 10]) ≠
      [0, 0, 0] ∧
    decryptBytesWithKeys aesId "2.AAAA|c2VjcmV0CgoKCgoKCgoKCg==|AAAA"
      (List.replicate 32 0) (List.replicate 32 1) = none ∧
    decryptString aesId stUnlocked (some "2.AAAA|c2VjcmV0CgoKCgoKCgoKCg==|AAAA") none =
      some "secret" := by
  refine ⟨?_, by decide, by decide⟩
  intro h
  have hl := congrArg List.length h
  rw [hmacSha256_length] at hl
  simp at hl

/-! ## Claim C8 -/

/-- Fixture: a type-1 Login cipher whose name decrypts to "GitHub",
username to "user1", password to "pw123" and first URI to
"https://g.h". -/
def fixtureLogin : Cipher :=
  { ctype := some 1, id := some "id1",
    name := some "0.AAAA|R2l0SHViCgoKCgoKCgoKCg==",
    notes := none, favorite := false, deletedDate := none,
    login := some
      { username := some "0.AAAA|dXNlcjELCwsLCwsLCwsLCw==",
        password := some "0.AAAA|cHcxMjMLCwsLCwsLCwsLCw==",
        uris := [some "0.AAAA|aHR0cHM6Ly9nLmgFBQUFBQ=="], totp := none },
    card := none, identity := none, fields := [] }

/-- Fixture: a type-3 Card cipher whose number decrypts to the 16-digit
"4111111111113456". -/
def fixtureCard : Cipher :=
  { ctype := some 3, id := some "id2",
    name := some "0.AAAA|VmlzYQwMDAwMDAwMDAwMDA==",
    notes := none, favorite := false, deletedDate := none, login := none,
    card := some
      { cardholderName := some "0.AAAA|QSBCDQ0NDQ0NDQ0NDQ0NDQ==",
        brand := some "0.AAAA|VmlzYQwMDAwMDAwMDAwMDA==",
        number := some "0.AAAA|NDExMTExMTExMTExMzQ1NhAQEBAQEBAQEBAQEBAQEBA=",
        expMonth := some "0.AAAA|MTIODg4ODg4ODg4ODg4ODg==",
        expYear := some "0.AAAA|MjAzMAwMDAwMDAwMDAwMDA==",
        code := some "0.AAAA|MTIzDQ0NDQ0NDQ0NDQ0NDQ==" },
    identity := none, fields := [] }

/-- Fixture: a soft-deleted cipher (non-empty `deletedDate`). -/
def fixtureDeleted : Cipher :=
  { ctype := some 1, id := some "id3",
    name := some "0.AAAA|bm90ZSB4CgoKCgoKCgoKCg==",
    notes := none, favorite := false, deletedDate := some "2024-01-01T00:00:00Z",
    login := none, card := none, identity := none, fields := [] }

/-- Claim C8: searching the synced fixture collection (one Login, one Card
with a 16-digit number, one soft-deleted item) returns exactly the Login
and the Card — the deleted item is excluded — with the Login exposing the
decrypted username, password and url, and the Card exposing
`number_masked` equal to twelve bullets plus the last four digits while
`number_full` keeps all 16 digits. -/
theorem c8_sync_fixture :
    (searchItems aesId (some [fixtureLogin, fixtureCard, fixtureDeleted]) stUnlocked "").length =
      2 ∧
    ((searchItems aesId (some [fixtureLogin, fixtureCard, fixtureDeleted]) stUnlocked
        "").getD 0 default).id = some "id1" ∧
    ((searchItems aesId (some [fixtureLogin, fixtureCard, fixtureDeleted]) stUnlocked
        "").getD 0 default).name = "GitHub" ∧
    ((searchItems aesId (some [fixtureLogin, fixtureCard, fixtureDeleted]) stUnlocked
        "").getD 0 default).username = some "user1" ∧
    ((searchItems aesId (some [fixtureLogin, fixtureCard, fixtureDeleted]) stUnlocked
        "").getD 0 default).password = some "pw123" ∧
    ((searchItems aesId (some [fixtureLogin, fixtureCard, fixtureDeleted]) stUnlocked
        "").getD 0 default).url = some "https://g.h" ∧
    ((searchItems aesId (some [fixtureLogin, fixtureCard, fixtureDeleted]) stUnlocked
        "").getD 1 default).id = some "id2" ∧
    ((searchItems aesId (some [fixtureLogin, fixtureCard, fixtureDeleted]) stUnlocked
        "").getD 1 default).number_full = some "4111111111113456" ∧
    ((searchItems aesId (some [fixtureLogin, fixtureCard, fixtureDeleted]) stUnlocked
        "").getD 1 default).number_masked = some "••••••••••••3456" ∧
    ("4111111111113456".data.length = 16 ∧ "4111111111113456".data.all Char.isDigit = true) ∧
    (∀ it ∈ searchItems aesId (some [fixtureLogin, fixtureCard, fixtureDeleted]) stUnlocked "",
      it.id ≠ some "id3") := by
  decide

end Bitwarden
